import Mathlib

/-!
Shallow embedding of the audit-log-service core (Go) in Lean 4.

Source files embedded:
- internal/services/audit.go        (AuditService: create/list/update/stats)
- internal/services/notification.go (NotificationService: fan-out dispatch)
- internal/config (AuditConfig.IsValidStatus)
- internal/repositories (AuditRepository: Create/List/UpdateStatus/Delete)
- internal/models (AuditLog, CreateAuditLogRequest, AuditLogFilter,
  PaginatedResponse, UpdateStatusRequest)

Modelling conventions:
- Go strings are Lean `String`; the opaque `json.RawMessage` payload and the
  metadata map are modelled as `Option String` (nil vs. opaque serialized
  bytes) since the code never inspects their contents, only nil-ness.
- `time.Time` instants are `Nat` (0 is the Go zero time, `IsZero`); each
  `time.Now()` call site receives its own instant parameter, constrained to a
  monotone clock where a theorem needs it.
- `uuid.New().String()` is modelled by formatting 16 arbitrary bytes in the
  canonical 8-4-4-4-12 lowercase-hex layout of the google/uuid library.
- Database effects are explicit: the table is a `List AuditLog`, a failing
  `Exec` is an `execOk : Bool` parameter, and fallible operations return
  `Except AuditError _`.
- The untyped `fmt.Errorf` errors of the Go code are represented by an
  inductive `AuditError`, one constructor per distinct error site.
-/

/-- ASCII decimal digit test (Go `'0' <= c && c <= '9'`). -/
def isDigitChar (c : Char) : Bool := '0' ≤ c && c ≤ '9'

/-- Numeric value of a decimal digit character. -/
def digitVal (c : Char) : Nat := c.toNat - 48

/-- ASCII hexadecimal digit test, as accepted by Go's `xtoi`. -/
def isHexChar (c : Char) : Bool :=
  isDigitChar c || ('a' ≤ c && c ≤ 'f') || ('A' ≤ c && c ≤ 'F')

/-- Numeric value of a hexadecimal digit character. -/
def hexVal (c : Char) : Nat :=
  if isDigitChar c then c.toNat - 48
  else if 'a' ≤ c && c ≤ 'f' then c.toNat - 97 + 10
  else c.toNat - 65 + 10

/-- Decimal value of a digit run (Go `dtoi` accumulation). -/
def decValue (p : List Char) : Nat := p.foldl (fun acc c => acc * 10 + digitVal c) 0

/-- One dotted-decimal IPv4 field as accepted by Go `net.parseIPv4`:
nonempty, all digits, value at most 255, and no leading zero. -/
def validOctet (p : List Char) : Bool :=
  !p.isEmpty && p.all isDigitChar && decide (decValue p ≤ 255) &&
    (p.length == 1 || p.headD ' ' != '0')

/-- Split a character list on a separator, Go `strings.Split` style:
always returns one more part than there are separators. -/
def splitOnChar (sep : Char) : List Char → List (List Char)
  | [] => [[]]
  | c :: t =>
    let r := splitOnChar sep t
    if c == sep then [] :: r
    else
      match r with
      | [] => [[c]]
      | h :: t2 => (c :: h) :: t2

/-- Go `net.parseIPv4` validity: exactly four valid dotted-decimal octets
consuming the whole string. -/
def goParseIPv4 (s : List Char) : Bool :=
  let parts := splitOnChar '.' s
  parts.length == 4 && parts.all validOctet

/-- Go `xtoi`: consume a maximal run of hex digits, returning the value, the
number of digits consumed, and the rest of the string. -/
def takeHexRun (acc cnt : Nat) : List Char → Nat × Nat × List Char
  | [] => (acc, cnt, [])
  | c :: t =>
    if isHexChar c then takeHexRun (acc * 16 + hexVal c) (cnt + 1) t
    else (acc, cnt, c :: t)

/-- End-of-loop acceptance for Go `net.parseIPv6` once the input is
exhausted: fewer than 16 bytes filled requires a `::`, a full 16 bytes
forbids one. -/
def v6Post (i : Nat) (ell : Bool) : Bool := if i < 16 then ell else !ell

/-- Main loop of Go `net.parseIPv6`: `i` is the number of address bytes
filled so far, `ell` whether a `::` has been seen. Fuel bounds the at most
eight group iterations. -/
def v6Loop : Nat → Nat → Bool → List Char → Bool
  | 0, _, _, _ => false
  | fuel + 1, i, ell, s =>
    if 16 ≤ i then s.isEmpty && v6Post i ell
    else
      match takeHexRun 0 0 s with
      | (n, c, rest) =>
        if c == 0 then false
        else if decide (n > 0xFFFF) then false
        else if (match rest with | '.' :: _ => true | _ => false) then
          if !ell && !(i == 12) then false
          else if decide (i + 4 > 16) then false
          else if !goParseIPv4 s then false
          else v6Post (i + 4) ell
        else
          match rest with
          | [] => v6Post (i + 2) ell
          | c1 :: rest1 =>
            if c1 != ':' then false
            else
              match rest1 with
              | [] => false
              | c2 :: rest2 =>
                if c2 == ':' then
                  if ell then false
                  else
                    match rest2 with
                    | [] => v6Post (i + 2) true
                    | _ => v6Loop fuel (i + 2) true rest2
                else v6Loop fuel (i + 2) ell (c2 :: rest2)

/-- Go `net.parseIPv6` validity (zones are rejected, as `net.ParseIP` does). -/
def goParseIPv6 (s : List Char) : Bool :=
  match s with
  | ':' :: ':' :: rest => if rest.isEmpty then true else v6Loop 9 0 true rest
  | _ => v6Loop 9 0 false s

/-- The leading scan of Go `net.ParseIP`: the first `'.'` or `':'` selects
the IPv4 or IPv6 grammar for the whole string (`some true` = IPv4). -/
def firstSpecial : List Char → Option Bool
  | [] => none
  | c :: t =>
    if c == '.' then some true
    else if c == ':' then some false
    else firstSpecial t

/-- Go `net.ParseIP(s) != nil`: used both by the `ip` validator tag of
go-playground/validator and by `AuditService.validateIP`. -/
def goParseIP (s : String) : Bool :=
  match firstSpecial s.data with
  | some true => goParseIPv4 s.data
  | some false => goParseIPv6 s.data
  | none => false

/-- Go `strings.ToUpper` restricted to the ASCII range the service uses. -/
def goToUpper (s : String) : String := String.mk (s.data.map Char.toUpper)

/-- Whether `need` occurs at the start of `hay` (character lists). -/
def startsWithChars : List Char → List Char → Bool
  | [], _ => true
  | _ :: _, [] => false
  | a :: as_, b :: bs => a == b && startsWithChars as_ bs

/-- Substring occurrence on character lists. -/
def containsChars (need : List Char) : List Char → Bool
  | [] => need.isEmpty
  | c :: t => startsWithChars need (c :: t) || containsChars need t

/-- Go `strings.Contains hay need`. -/
def goContains (hay need : String) : Bool := containsChars need.data hay.data

/-- Lowercase hex digit character of `n % 16` (google/uuid formatting). -/
def hexChar (n : Nat) : Char :=
  (("0123456789abcdef".data).getD (n % 16) '0')

/-- Two lowercase hex characters of one byte. -/
def byteHexChars (b : Nat) : List Char := [hexChar (b / 16), hexChar b]

/-- `uuid.New().String()`: canonical 8-4-4-4-12 formatting of the 16
generated bytes; the byte values are an arbitrary parameter. -/
def uuidString (u : Fin 16 → Nat) : String :=
  String.mk
    (byteHexChars (u 0) ++ byteHexChars (u 1) ++ byteHexChars (u 2) ++ byteHexChars (u 3) ++
     ['-'] ++ byteHexChars (u 4) ++ byteHexChars (u 5) ++
     ['-'] ++ byteHexChars (u 6) ++ byteHexChars (u 7) ++
     ['-'] ++ byteHexChars (u 8) ++ byteHexChars (u 9) ++
     ['-'] ++ byteHexChars (u 10) ++ byteHexChars (u 11) ++ byteHexChars (u 12) ++
     byteHexChars (u 13) ++ byteHexChars (u 14) ++ byteHexChars (u 15))

/-- models.AuditLog (internal/models): `data` is the opaque
`json.RawMessage` payload, `meta` the metadata map, both `none` when nil. -/
structure AuditLog where
  id : String
  tenantID : String
  userID : String
  resource : String
  event : String
  method : String
  ip : String
  status : String
  data : Option String
  environment : String
  meta : Option String
  timestamp : Nat
  createdAt : Nat
  updatedAt : Nat
  deriving Repr, DecidableEq

/-- models.CreateAuditLogRequest (internal/models). -/
structure CreateAuditLogRequest where
  tenantID : String
  userID : String
  resource : String
  event : String
  method : String
  ip : String
  status : String
  data : Option String
  environment : String
  meta : Option String
  deriving Repr, DecidableEq

/-- models.UpdateStatusRequest (internal/models): `data`/`meta` are `none`
when absent from the request (Go nil). -/
structure UpdateStatusRequest where
  status : String
  data : Option String
  meta : Option String
  deriving Repr, DecidableEq

/-- models.AuditLogFilter (internal/models): zero instants (`0`) mean the
date bound is absent, empty strings mean the equality filter is absent. -/
structure AuditLogFilter where
  tenantID : String
  userID : String
  resource : String
  event : String
  method : String
  status : String
  environment : String
  startDate : Nat
  endDate : Nat
  limit : Int
  offset : Int
  deriving Repr, DecidableEq

/-- models.PaginatedResponse (internal/models). -/
structure PaginatedResponse where
  data : List AuditLog
  total : Int
  limit : Int
  offset : Int
  hasMore : Bool
  deriving Repr, DecidableEq

/-- config.AuditConfig (internal/config). -/
structure AuditConfig where
  enabled : Bool
  defaultStatus : String
  statusValues : List String
  errorStatus : String
  deriving Repr, DecidableEq

/-- AuditConfig.IsValidStatus (internal/config): any status is valid when
the audit feature is disabled, otherwise membership in StatusValues. -/
def AuditConfig.isValidStatus (c : AuditConfig) (status : String) : Bool :=
  if !c.enabled then true
  else c.statusValues.any (fun v => v == status)

/-- One constructor per distinct `fmt.Errorf` site of the embedded code. -/
inductive AuditError where
  | validationFailed (fields : List String)
  | invalidIP
  | invalidStatus (status : String) (allowed : List String)
  | persistFailed
  | idRequired
  | statusRequired
  | notFound
  | dateRange
  deriving Repr, DecidableEq

/-- Modelled from the spec: the error-taxonomy classification of section 7
(the Go code carries untyped `fmt.Errorf` values; the spec's
`InvalidInputError` class covers bad IP, disallowed status, empty required
identifier or status, and inverted date range). -/
def AuditError.isInvalidInput : AuditError → Bool
  | .invalidIP => true
  | .invalidStatus _ _ => true
  | .idRequired => true
  | .statusRequired => true
  | .dateRange => true
  | _ => false

/-- The allowed `oneof` values of the request `Method` validator tag. -/
def methodValues : List String := ["GET", "POST", "PUT", "DELETE", "PATCH"]

/-- The allowed `oneof` values of the request `Environment` validator tag. -/
def environmentValues : List String := ["development", "staging", "production"]

/-- go-playground `validator.Struct` on CreateAuditLogRequest: evaluates the
declared tags (`required`, `oneof=...`, `ip`) per field in declaration order
and collects every violated field (the empty string is never a member of a
`oneof` set, and the `ip` tag is `net.ParseIP`-based). -/
def validateCreateRequest (req : CreateAuditLogRequest) : List String :=
  (if req.tenantID == "" then ["TenantID"] else []) ++
  (if req.userID == "" then ["UserID"] else []) ++
  (if req.resource == "" then ["Resource"] else []) ++
  (if req.event == "" then ["Event"] else []) ++
  (if !(methodValues.contains req.method) then ["Method"] else []) ++
  (if req.ip == "" || !(goParseIP req.ip) then ["IP"] else []) ++
  (if !(environmentValues.contains req.environment) then ["Environment"] else [])

/-- AuditRepository.Create (internal/repositories): assigns the uuid and the
three `time.Now()` instants `t1 ≤ t2 ≤ t3` (Timestamp, CreatedAt, UpdatedAt
in that call order), then inserts; `execOk` is the outcome of the
`INSERT` Exec. Returns the new table and the mutated record. -/
def repoCreate (execOk : Bool) (u : Fin 16 → Nat) (t1 t2 t3 : Nat)
    (db : List AuditLog) (log : AuditLog) :
    Except AuditError (List AuditLog × AuditLog) :=
  let log2 := { log with id := uuidString u, timestamp := t1, createdAt := t2, updatedAt := t3 }
  if execOk then .ok (db ++ [log2], log2) else .error .persistFailed

/-- The AuditLog literal built by AuditService.CreateAuditLog before
delegation to the repository: method uppercased, status already resolved,
identity and timestamps still zero. -/
def mkAuditLog (req : CreateAuditLogRequest) (status : String) : AuditLog :=
  { id := ""
    tenantID := req.tenantID
    userID := req.userID
    resource := req.resource
    event := req.event
    method := goToUpper req.method
    ip := req.ip
    status := status
    data := req.data
    environment := req.environment
    meta := req.meta
    timestamp := 0
    createdAt := 0
    updatedAt := 0 }

deriving instance DecidableEq for Except

/-- Observable outcome of AuditService.CreateAuditLog: the returned value,
the table afterwards, whether the repository Create was ever invoked,
whether the fire-and-forget notification goroutine was spawned, and the
notification error that goroutine logged (never returned). -/
structure CreateOutcome where
  result : Except AuditError AuditLog
  db : List AuditLog
  storeInvoked : Bool
  notificationTriggered : Bool
  loggedNotifErr : Option String
  deriving Repr, DecidableEq

/-- The status resolution of AuditService.CreateAuditLog (audit.go 57-61):
the request's status when supplied, else the configured default. -/
def resolvedStatus (cfg : AuditConfig) (req : CreateAuditLogRequest) : String :=
  if req.status == "" then cfg.defaultStatus else req.status

/-- AuditService.CreateAuditLog (internal/services/audit.go 44-108):
struct validation, explicit IP re-validation, status resolution and
vocabulary check, method uppercasing, repository Create, then asynchronous
notification whose result (`notifResult`, `none` on success) is only
logged. `hasNotifSvc` models `s.notificationService != nil`. -/
def createAuditLog (cfg : AuditConfig) (hasNotifSvc : Bool)
    (notifResult : Option String) (execOk : Bool) (u : Fin 16 → Nat)
    (t1 t2 t3 : Nat) (req : CreateAuditLogRequest) (db : List AuditLog) :
    CreateOutcome :=
  if !(validateCreateRequest req).isEmpty then
    ⟨.error (.validationFailed (validateCreateRequest req)), db, false, false, none⟩
  else if !goParseIP req.ip then
    ⟨.error .invalidIP, db, false, false, none⟩
  else if cfg.enabled && !(cfg.isValidStatus (resolvedStatus cfg req)) then
    ⟨.error (.invalidStatus (resolvedStatus cfg req) cfg.statusValues), db, false, false, none⟩
  else
    match repoCreate execOk u t1 t2 t3 db (mkAuditLog req (resolvedStatus cfg req)) with
    | .error e => ⟨.error e, db, true, false, none⟩
    | .ok (db2, log2) =>
      ⟨.ok log2, db2, true, hasNotifSvc, if hasNotifSvc then notifResult else none⟩

/-- The conjunctive row predicate of AuditRepository.buildWhereClause: every
non-empty (non-zero) filter field contributes exactly one equality or range
conjunct. -/
def matchesFilter (f : AuditLogFilter) (r : AuditLog) : Bool :=
  (f.tenantID == "" || r.tenantID == f.tenantID) &&
  (f.userID == "" || r.userID == f.userID) &&
  (f.resource == "" || r.resource == f.resource) &&
  (f.event == "" || r.event == f.event) &&
  (f.method == "" || r.method == f.method) &&
  (f.status == "" || r.status == f.status) &&
  (f.environment == "" || r.environment == f.environment) &&
  (f.startDate == 0 || decide (f.startDate ≤ r.timestamp)) &&
  (f.endDate == 0 || decide (r.timestamp ≤ f.endDate))

/-- Insertion into a timestamp-descending list (ORDER BY timestamp DESC). -/
def insertDesc (r : AuditLog) : List AuditLog → List AuditLog
  | [] => [r]
  | x :: xs => if x.timestamp ≤ r.timestamp then r :: x :: xs else x :: insertDesc r xs

/-- Timestamp-descending ordering of the page query (ORDER BY timestamp DESC). -/
def sortDesc : List AuditLog → List AuditLog
  | [] => []
  | x :: xs => insertDesc x (sortDesc xs)

/-- AuditRepository.List (internal/repositories): count of every matching
row, then the page ordered by timestamp descending with LIMIT/OFFSET, the
filter's limit and offset echoed, and `hasMore = offset + limit < total`. -/
def repoList (db : List AuditLog) (f : AuditLogFilter) : PaginatedResponse :=
  let matching := db.filter (matchesFilter f)
  let total : Int := matching.length
  let page := ((sortDesc matching).drop f.offset.toNat).take f.limit.toNat
  { data := page
    total := total
    limit := f.limit
    offset := f.offset
    hasMore := decide (f.offset + f.limit < total) }

/-- The filter mutation at the top of AuditService.ListAuditLogs
(audit.go 128-136): limit ≤ 0 becomes 50, then limit > 1000 becomes 1000,
then offset < 0 becomes 0, in that order. -/
def clampFilter (f : AuditLogFilter) : AuditLogFilter :=
  let f1 := if f.limit ≤ 0 then { f with limit := 50 } else f
  let f2 := if f1.limit > 1000 then { f1 with limit := 1000 } else f1
  if f2.offset < 0 then { f2 with offset := 0 } else f2

/-- AuditService.ListAuditLogs (internal/services/audit.go 126-159): clamps
limit and offset on the filter, rejects an inverted fully-specified date
range, then delegates to the repository with the clamped filter. -/
def listAuditLogs (db : List AuditLog) (f : AuditLogFilter) :
    Except AuditError PaginatedResponse :=
  let f3 := clampFilter f
  if !(f3.startDate == 0) && !(f3.endDate == 0) && decide (f3.endDate < f3.startDate) then
    .error .dateRange
  else
    .ok (repoList db f3)

/-- The effective limit after the sequential clamps of ListAuditLogs. -/
def effLimit (l : Int) : Int := if l ≤ 0 then 50 else if l > 1000 then 1000 else l

/-- The effective offset after the clamp of ListAuditLogs. -/
def effOffset (o : Int) : Int := if o < 0 then 0 else o

/-- The statistics value assembled by AuditService.GetAuditLogStats
(total_logs, error_count, echoed period and tenant). -/
structure AuditStats where
  totalLogs : Int
  errorCount : Int
  startDate : Nat
  endDate : Nat
  tenantID : String
  deriving Repr, DecidableEq

/-- AuditService.GetAuditLogStats (internal/services/audit.go 188-227): two
repository List calls with limit 1, the second additionally filtered by the
configured error status; returns both totals. -/
def getAuditLogStats (cfg : AuditConfig) (db : List AuditLog)
    (tenantID : String) (startDate endDate : Nat) : AuditStats :=
  let filter : AuditLogFilter :=
    { tenantID := tenantID, userID := "", resource := "", event := "",
      method := "", status := "", environment := "",
      startDate := startDate, endDate := endDate, limit := 1, offset := 0 }
  let errorFilter : AuditLogFilter := { filter with status := cfg.errorStatus }
  let result := repoList db filter
  let errorResult := repoList db errorFilter
  { totalLogs := result.total
    errorCount := errorResult.total
    startDate := startDate
    endDate := endDate
    tenantID := tenantID }

/-- The row mutation of AuditRepository.UpdateStatus's UPDATE statement:
status and updated_at always, data and meta only when supplied. -/
def applyStatusUpdate (now : Nat) (req : UpdateStatusRequest) (r : AuditLog) : AuditLog :=
  { r with
    status := req.status
    updatedAt := now
    data := match req.data with | some d => some d | none => r.data
    meta := match req.meta with | some m => some m | none => r.meta }

/-- AuditRepository.UpdateStatus (internal/repositories): applies the UPDATE
to every row matching the id and reports NotFoundError when zero rows were
affected. `now` is the database NOW() instant. -/
def repoUpdateStatus (now : Nat) (db : List AuditLog) (id : String)
    (req : UpdateStatusRequest) : Except AuditError (List AuditLog) :=
  let db2 := db.map (fun r => if r.id == id then applyStatusUpdate now req r else r)
  if db.any (fun r => r.id == id) then .ok db2 else .error .notFound

/-- AuditService.UpdateAuditLogStatus (internal/services/audit.go 230-265):
rejects an empty id or status, applies the same status-vocabulary check as
creation, then delegates to the repository partial update. -/
def updateAuditLogStatus (cfg : AuditConfig) (now : Nat) (db : List AuditLog)
    (id : String) (req : UpdateStatusRequest) : Except AuditError (List AuditLog) :=
  if id == "" then .error .idRequired
  else if req.status == "" then .error .statusRequired
  else if cfg.enabled && !(cfg.isValidStatus req.status) then
    .error (.invalidStatus req.status cfg.statusValues)
  else repoUpdateStatus now db id req

/-- config.EmailConfig: enablement switch and recipient list (the Go `To`
field; renamed because `to` is reserved here). -/
structure EmailConfig where
  enabled : Bool
  toRecipients : List String
  deriving Repr, DecidableEq

/-- config.SlackConfig: enablement switch and channel name. -/
structure SlackConfig where
  enabled : Bool
  channel : String
  deriving Repr, DecidableEq

/-- config.WebhookConfig: enablement switch and target URL list. -/
structure WebhookConfig where
  enabled : Bool
  urls : List String
  deriving Repr, DecidableEq

/-- config.NotificationConfig. -/
structure NotificationConfig where
  email : EmailConfig
  slack : SlackConfig
  webhook : WebhookConfig
  deriving Repr, DecidableEq

/-- The transport collaborators of NotificationService: whether each sender
is non-nil, and the per-call outcome of each Send (`none` = success,
`some msg` = the transport's failure message). -/
structure SendEnv where
  hasEmailSender : Bool
  hasSlackSender : Bool
  hasWebhookSender : Bool
  emailFail : String → Option String
  slackFail : String → Option String
  webhookFail : String → Option String

/-- The criticalEvents marker list of
NotificationService.shouldNotifyByEmail. -/
def criticalEvents : List String := ["DELETE", "UNAUTHORIZED_ACCESS", "SECURITY_BREACH"]

/-- NotificationService.shouldNotifyByEmail: the uppercased event name
contains one of the critical-event markers. -/
def shouldNotifyByEmail (log : AuditLog) : Bool :=
  criticalEvents.any (fun ev => goContains (goToUpper log.event) ev)

/-- NotificationService.shouldNotifyBySlack: production environment only. -/
def shouldNotifyBySlack (log : AuditLog) : Bool := log.environment == "production"

/-- NotificationService.shouldNotifyByWebhook: unconditionally true. -/
def shouldNotifyByWebhook (_ : AuditLog) : Bool := true

/-- NotificationService.shouldSendNotification: some enabled channel's
predicate holds. -/
def shouldSendNotification (cfg : NotificationConfig) (log : AuditLog) : Bool :=
  (cfg.email.enabled && shouldNotifyByEmail log) ||
  (cfg.slack.enabled && shouldNotifyBySlack log) ||
  (cfg.webhook.enabled && shouldNotifyByWebhook log)

/-- The sequential multi-target send loop shared by
sendEmailNotification (over Email.To) and sendWebhookNotification (over
Webhook.URLs): targets are attempted in order and the loop returns the
first failure immediately, leaving later targets unattempted. Returns the
failing target and message (if any) and the list of attempted targets. -/
def sendSeq (fail : String → Option String) :
    List String → Option (String × String) × List String
  | [] => (none, [])
  | t :: ts =>
    match fail t with
    | some e => (some (t, e), [t])
    | none =>
      match sendSeq fail ts with
      | (r, att) => (r, t :: att)

/-- NotificationService.sendEmailNotification (notification.go 106-126):
nil-sender guard, then one Send per configured recipient with an early
return on the first failure. Result: channel error (if any) and the
recipients actually attempted. -/
def sendEmailNotification (env : SendEnv) (cfg : NotificationConfig) :
    Option String × List String :=
  if !env.hasEmailSender then (some "email sender not configured", [])
  else
    match sendSeq env.emailFail cfg.email.toRecipients with
    | (some (t, e), att) => (some ("failed to send email to " ++ t ++ ": " ++ e), att)
    | (none, att) => (none, att)

/-- NotificationService.sendSlackNotification (notification.go 129-150):
nil-sender guard, defaulted channel name, a single Send. -/
def sendSlackNotification (env : SendEnv) (cfg : NotificationConfig) :
    Option String :=
  if !env.hasSlackSender then some "slack sender not configured"
  else
    let channel := if cfg.slack.channel == "" then "#audit-alerts" else cfg.slack.channel
    match env.slackFail channel with
    | some e => some ("failed to send slack message: " ++ e)
    | none => none

/-- NotificationService.sendWebhookNotification (notification.go 153-172):
nil-sender guard, then one Send per configured URL with an early return on
the first failure. -/
def sendWebhookNotification (env : SendEnv) (cfg : NotificationConfig) :
    Option String × List String :=
  if !env.hasWebhookSender then (some "webhook sender not configured", [])
  else
    match sendSeq env.webhookFail cfg.webhook.urls with
    | (some (t, e), att) => (some ("failed to send webhook to " ++ t ++ ": " ++ e), att)
    | (none, att) => (none, att)

/-- The notification channels. -/
inductive Channel where
  | email
  | slack
  | webhook
  deriving Repr, DecidableEq

/-- Observable outcome of NotificationService.SendNotification: which
channels were dispatched (had a goroutine spawned), which email recipients
and webhook URLs were attempted, the collected error messages, and the
aggregate result returned to the caller (`none` = nil error). The three
channel goroutines run concurrently; the model fixes the email, slack,
webhook collection order, which only affects the ordering inside `errors`. -/
structure FanoutOutcome where
  dispatched : List Channel
  emailAttempted : List String
  slackAttempted : Bool
  webhookAttempted : List String
  errors : List String
  result : Option String
  deriving Repr, DecidableEq

/-- NotificationService.SendNotification (notification.go 43-103): early
nil return when no enabled channel's predicate holds, otherwise concurrent
dispatch of each qualifying channel, error collection, and an aggregate
error joining every channel failure. -/
def sendNotification (env : SendEnv) (cfg : NotificationConfig) (log : AuditLog) :
    FanoutOutcome :=
  if !shouldSendNotification cfg log then ⟨[], [], false, [], [], none⟩
  else
    let emailPart :=
      if cfg.email.enabled && shouldNotifyByEmail log then
        match sendEmailNotification env cfg with
        | (some e, att) => ([Channel.email], att, ["email notification failed: " ++ e])
        | (none, att) => ([Channel.email], att, [])
      else ([], [], [])
    let slackPart :=
      if cfg.slack.enabled && shouldNotifyBySlack log then
        match sendSlackNotification env cfg with
        | some e => ([Channel.slack], true, ["slack notification failed: " ++ e])
        | none => ([Channel.slack], true, [])
      else ([], false, [])
    let webhookPart :=
      if cfg.webhook.enabled && shouldNotifyByWebhook log then
        match sendWebhookNotification env cfg with
        | (some e, att) => ([Channel.webhook], att, ["webhook notification failed: " ++ e])
        | (none, att) => ([Channel.webhook], att, [])
      else ([], [], [])
    let errors := emailPart.2.2 ++ slackPart.2.2 ++ webhookPart.2.2
    { dispatched := emailPart.1 ++ slackPart.1 ++ webhookPart.1
      emailAttempted := emailPart.2.1
      slackAttempted := slackPart.2.1
      webhookAttempted := webhookPart.2.1
      errors := errors
      result :=
        if errors.isEmpty then none
        else some ("notification errors: " ++ String.intercalate "; " errors) }

/-- Fixture: the audit configuration of the test suite and README examples. -/
def sampleCfg : AuditConfig :=
  { enabled := true
    defaultStatus := "pending"
    statusValues := ["pending", "processing", "completed", "failed", "archived"]
    errorStatus := "failed" }

/-- Fixture: an all-zero uuid byte source. -/
def zeroBytes : Fin 16 → Nat := fun _ => 0

/-- Fixture: the spec's concrete create request with the lowercase method. -/
def lowerMethodReq : CreateAuditLogRequest :=
  { tenantID := "t1", userID := "u1", resource := "users", event := "USER_CREATED",
    method := "post", ip := "192.168.1.100", status := "", data := none,
    environment := "production", meta := none }

/-- Fixture: the same request with the uppercase method the validator
accepts. -/
def samplePostReq : CreateAuditLogRequest := { lowerMethodReq with method := "POST" }

/-- Fixture: the uppercase-method request with a malformed ip. -/
def badIPReq : CreateAuditLogRequest := { samplePostReq with ip := "not-an-ip" }

/-- Fixture: the record `createAuditLog` persists for `samplePostReq` under
`sampleCfg`, `zeroBytes`, and clock instants 1, 2, 3. -/
def samplePostLog : AuditLog :=
  { id := uuidString zeroBytes, tenantID := "t1", userID := "u1", resource := "users",
    event := "USER_CREATED", method := "POST", ip := "192.168.1.100", status := "pending",
    data := none, environment := "production", meta := none,
    timestamp := 1, createdAt := 2, updatedAt := 3 }

/-- Fixture: the accepted request with an out-of-vocabulary status. -/
def badStatusReq : CreateAuditLogRequest := { samplePostReq with status := "weird" }

/-- Fixture: the configuration with the status-vocabulary feature disabled. -/
def disabledCfg : AuditConfig := { sampleCfg with enabled := false }

/-- Fixture: the configuration with an empty error status. -/
def emptyErrorCfg : AuditConfig := { sampleCfg with errorStatus := "" }

/-- Fixture: a stored record used by the update and stats scenarios. -/
def storedLog : AuditLog :=
  { id := "id-1", tenantID := "t1", userID := "u1", resource := "users",
    event := "USER_CREATED", method := "POST", ip := "192.168.1.100", status := "pending",
    data := some "olddata", environment := "production", meta := some "oldmeta",
    timestamp := 10, createdAt := 10, updatedAt := 10 }

/-- Fixture: a status-only update request. -/
def updOnlyStatus : UpdateStatusRequest := { status := "completed", data := none, meta := none }

/-- Fixture: an update request supplying data but not meta. -/
def updWithData : UpdateStatusRequest :=
  { status := "completed", data := some "newdata", meta := none }

/-- Fixture: a filter with out-of-range pagination parameters. -/
def badPageFilter : AuditLogFilter :=
  { tenantID := "", userID := "", resource := "", event := "", method := "",
    status := "", environment := "", startDate := 0, endDate := 0,
    limit := -5, offset := -3 }

/-- Fixture: every notification channel enabled, two email recipients, one
webhook URL. -/
def notifCfgAll : NotificationConfig :=
  { email := { enabled := true, toRecipients := ["a@x", "b@y"] }
    slack := { enabled := true, channel := "" }
    webhook := { enabled := true, urls := ["http-one"] } }

/-- Fixture: all senders configured; email delivery fails for the first
recipient only, everything else succeeds. -/
def envFailFirst : SendEnv :=
  { hasEmailSender := true, hasSlackSender := true, hasWebhookSender := true
    emailFail := fun r => if r == "a@x" then some "boom" else none
    slackFail := fun _ => none
    webhookFail := fun _ => none }

/-- Fixture: all senders configured and every delivery succeeds. -/
def envAllOk : SendEnv :=
  { hasEmailSender := true, hasSlackSender := true, hasWebhookSender := true
    emailFail := fun _ => none
    slackFail := fun _ => none
    webhookFail := fun _ => none }

/-- Fixture: every notification channel disabled. -/
def disabledNotifCfg : NotificationConfig :=
  { email := { enabled := false, toRecipients := [] }
    slack := { enabled := false, channel := "" }
    webhook := { enabled := false, urls := [] } }

/-- Fixture: the spec's critical production event. -/
def deleteLog : AuditLog := { storedLog with event := "USER_DELETED" }

/-- Fixture: the spec's non-critical development event. -/
def viewLog : AuditLog :=
  { storedLog with event := "USER_VIEWED", environment := "development" }

/-- Every uuid the store assigns renders as 36 characters. -/
theorem uuidString_length (u : Fin 16 → Nat) : (uuidString u).length = 36 := by
  simp [uuidString, byteHexChars, String.length]

/-- Store-assigned identifiers are never empty. -/
theorem uuidString_ne_empty (u : Fin 16 → Nat) : uuidString u ≠ "" := by
  intro h
  have := uuidString_length u
  rw [h] at this
  simp [String.length] at this

/-- A request that passes struct validation has its method in the `oneof`
set of the Method tag. -/
theorem validate_nil_method {req : CreateAuditLogRequest}
    (h : validateCreateRequest req = []) : methodValues.contains req.method = true := by
  by_contra hm
  simp only [validateCreateRequest] at h
  rcases List.append_eq_nil.mp h with ⟨h1, h2⟩
  rcases List.append_eq_nil.mp h1 with ⟨h3, h4⟩
  rcases List.append_eq_nil.mp h3 with ⟨h5, h6⟩
  rcases List.append_eq_nil.mp h5 with ⟨h7, h8⟩
  rcases List.append_eq_nil.mp h7 with ⟨h9, h10⟩
  simp at h6
  exact absurd h6 (by simpa using hm)

/-- A request that passes struct validation has a well-formed ip (the `ip`
tag of the IP field). -/
theorem validate_nil_ip {req : CreateAuditLogRequest}
    (h : validateCreateRequest req = []) : goParseIP req.ip = true := by
  by_contra hip
  simp only [validateCreateRequest] at h
  rcases List.append_eq_nil.mp h with ⟨h1, h2⟩
  rcases List.append_eq_nil.mp h1 with ⟨h3, h4⟩
  rw [Bool.not_eq_true] at hip
  simp [hip] at h4

/-- The five accepted methods are fixed points of the uppercase
normalization, so `strings.ToUpper` never changes an accepted method. -/
theorem method_toUpper_self {m : String} (h : methodValues.contains m = true) :
    goToUpper m = m := by
  simp [methodValues] at h
  rcases h with h | h | h | h | h <;> subst h <;> decide

/-- Success elimination for CreateAuditLog: a returned record means the
request passed validation, the insert succeeded, the record carries the
uuid, the three clock instants, the uppercased method and the resolved
status, and it was appended to the table. -/
theorem create_ok_elim {cfg : AuditConfig} {hasN : Bool} {nr : Option String}
    {execOk : Bool} {u : Fin 16 → Nat} {t1 t2 t3 : Nat}
    {req : CreateAuditLogRequest} {db : List AuditLog} {r : AuditLog}
    (h : (createAuditLog cfg hasN nr execOk u t1 t2 t3 req db).result = .ok r) :
    validateCreateRequest req = [] ∧ execOk = true ∧
    r = { mkAuditLog req (resolvedStatus cfg req) with
          id := uuidString u, timestamp := t1, createdAt := t2, updatedAt := t3 } ∧
    (createAuditLog cfg hasN nr execOk u t1 t2 t3 req db).db = db ++ [r] := by
  by_cases h1 : (validateCreateRequest req).isEmpty = true
  · by_cases h2 : goParseIP req.ip = true
    · by_cases h3 : (cfg.enabled && !(cfg.isValidStatus (resolvedStatus cfg req))) = true
      · simp [createAuditLog, h1, h2, h3] at h
      · by_cases he : execOk = true
        · have hout : createAuditLog cfg hasN nr execOk u t1 t2 t3 req db =
              ⟨.ok ({ mkAuditLog req (resolvedStatus cfg req) with
                      id := uuidString u, timestamp := t1, createdAt := t2, updatedAt := t3 }),
                db ++ [{ mkAuditLog req (resolvedStatus cfg req) with
                      id := uuidString u, timestamp := t1, createdAt := t2, updatedAt := t3 }],
                true, hasN, if hasN then nr else none⟩ := by
            simp [createAuditLog, h1, h2, h3, he, repoCreate]
          rw [hout] at h
          have hr := (Except.ok.injEq _ _).mp h
          exact ⟨List.isEmpty_iff.mp h1, he, hr.symm, by rw [hout, hr]⟩
        · simp only [Bool.not_eq_true] at he
          simp [createAuditLog, h1, h2, h3, he, repoCreate] at h
    · simp only [Bool.not_eq_true] at h2
      simp [createAuditLog, h1, h2] at h
  · simp only [Bool.not_eq_true] at h1
    simp [createAuditLog, h1] at h

/-- C1 (counterexample): the spec's concrete request with lowercase method
`"post"` is not accepted — struct validation rejects the Method field
(the `oneof` tag matches case-sensitively), no record is returned, and
nothing is persisted. -/
theorem C1_counterexample :
    (createAuditLog sampleCfg false none true zeroBytes 1 2 3 lowerMethodReq []).result =
      Except.error (AuditError.validationFailed ["Method"]) ∧
    (createAuditLog sampleCfg false none true zeroBytes 1 2 3 lowerMethodReq []).db = [] := by
  exact ⟨by decide, by decide⟩

/-- C1 (amended): a create request only succeeds when its method is exactly
one of GET/POST/PUT/DELETE/PATCH (case-sensitive), and the returned
record's method is the uppercase form of the supplied method — which is
the supplied method itself, since only uppercase forms pass validation. -/
theorem C1_method_uppercase (cfg : AuditConfig) (hasN : Bool) (nr : Option String)
    (execOk : Bool) (u : Fin 16 → Nat) (t1 t2 t3 : Nat) (req : CreateAuditLogRequest)
    (db : List AuditLog) (r : AuditLog)
    (h : (createAuditLog cfg hasN nr execOk u t1 t2 t3 req db).result = Except.ok r) :
    methodValues.contains req.method = true ∧
    r.method = goToUpper req.method ∧ r.method = req.method := by
  obtain ⟨hval, -, hr, -⟩ := create_ok_elim h
  have hm := validate_nil_method hval
  subst hr
  exact ⟨hm, rfl, by simpa [mkAuditLog] using method_toUpper_self hm⟩

/-- C1 witness: the uppercase variant of the spec's request is accepted and
keeps its method. -/
theorem C1_method_uppercase_witness :
    methodValues.contains samplePostReq.method = true ∧
    samplePostLog.method = goToUpper samplePostReq.method ∧
    samplePostLog.method = samplePostReq.method :=
  C1_method_uppercase sampleCfg false none true zeroBytes 1 2 3 samplePostReq []
    samplePostLog (by decide)

/-- C2: the creation result and the stored table are identical whatever the
asynchronous notification outcome is — a notification failure is recorded
only in the service log, and only after the record was persisted and
returned successfully. -/
theorem C2_notification_error_isolated (cfg : AuditConfig) (hasN : Bool)
    (nr : Option String) (execOk : Bool) (u : Fin 16 → Nat) (t1 t2 t3 : Nat)
    (req : CreateAuditLogRequest) (db : List AuditLog) :
    (createAuditLog cfg hasN nr execOk u t1 t2 t3 req db).result =
      (createAuditLog cfg hasN none execOk u t1 t2 t3 req db).result ∧
    (createAuditLog cfg hasN nr execOk u t1 t2 t3 req db).db =
      (createAuditLog cfg hasN none execOk u t1 t2 t3 req db).db ∧
    ((createAuditLog cfg hasN nr execOk u t1 t2 t3 req db).loggedNotifErr ≠ none →
      ∃ r, (createAuditLog cfg hasN nr execOk u t1 t2 t3 req db).result = Except.ok r ∧
        r ∈ (createAuditLog cfg hasN nr execOk u t1 t2 t3 req db).db) := by
  by_cases h1 : (validateCreateRequest req).isEmpty = true
  · by_cases h2 : goParseIP req.ip = true
    · by_cases h3 : (cfg.enabled && !(cfg.isValidStatus (resolvedStatus cfg req))) = true
      · simp [createAuditLog, h1, h2, h3]
      · by_cases he : execOk = true
        · simp [createAuditLog, h1, h2, h3, he, repoCreate]
        · simp only [Bool.not_eq_true] at he
          simp [createAuditLog, h1, h2, h3, he, repoCreate]
    · simp only [Bool.not_eq_true] at h2
      simp [createAuditLog, h1, h2]
  · simp only [Bool.not_eq_true] at h1
    simp [createAuditLog, h1]

/-- C2 witness: with the notification service present and a failing
notification outcome, the creation still returns the persisted record. -/
theorem C2_witness :
    ∃ r, (createAuditLog sampleCfg true (some "boom") true zeroBytes 1 2 3
        samplePostReq []).result = Except.ok r ∧
      r ∈ (createAuditLog sampleCfg true (some "boom") true zeroBytes 1 2 3
        samplePostReq []).db :=
  (C2_notification_error_isolated sampleCfg true (some "boom") true zeroBytes 1 2 3
    samplePostReq []).2.2 (by decide)

/-- C3: an omitted status resolves to the configured default on the
returned record; with the vocabulary feature enabled, an out-of-vocabulary
resolved status fails with the invalid-status error naming the permitted
set before anything is written; with the feature disabled, any resolved
status is accepted and creation proceeds. -/
theorem C3_status_vocabulary (cfg : AuditConfig) (hasN : Bool) (nr : Option String)
    (execOk : Bool) (u : Fin 16 → Nat) (t1 t2 t3 : Nat)
    (req : CreateAuditLogRequest) (db : List AuditLog) :
    (∀ r, req.status = "" →
      (createAuditLog cfg hasN nr execOk u t1 t2 t3 req db).result = Except.ok r →
      r.status = cfg.defaultStatus) ∧
    (cfg.enabled = true → validateCreateRequest req = [] →
      cfg.isValidStatus (resolvedStatus cfg req) = false →
      (createAuditLog cfg hasN nr execOk u t1 t2 t3 req db).result =
        Except.error (AuditError.invalidStatus (resolvedStatus cfg req) cfg.statusValues) ∧
      (createAuditLog cfg hasN nr execOk u t1 t2 t3 req db).storeInvoked = false ∧
      (createAuditLog cfg hasN nr execOk u t1 t2 t3 req db).db = db) ∧
    (cfg.enabled = false → validateCreateRequest req = [] → execOk = true →
      ∃ r, (createAuditLog cfg hasN nr execOk u t1 t2 t3 req db).result = Except.ok r ∧
        r.status = resolvedStatus cfg req) := by
  refine ⟨?_, ?_, ?_⟩
  · intro r hs h
    obtain ⟨-, -, hr, -⟩ := create_ok_elim h
    subst hr
    simp [mkAuditLog, resolvedStatus, hs]
  · intro hen hval hbad
    have h1 : (validateCreateRequest req).isEmpty = true := by simp [hval]
    have h2 := validate_nil_ip hval
    have h3 : (cfg.enabled && !(cfg.isValidStatus (resolvedStatus cfg req))) = true := by
      rw [hen, hbad]; rfl
    refine ⟨by simp [createAuditLog, h1, h2, h3], by simp [createAuditLog, h1, h2, h3],
      by simp [createAuditLog, h1, h2, h3]⟩
  · intro hdis hval he
    have h1 : (validateCreateRequest req).isEmpty = true := by simp [hval]
    have h2 := validate_nil_ip hval
    have h3 : (cfg.enabled && !(cfg.isValidStatus (resolvedStatus cfg req))) = false := by
      rw [hdis]; rfl
    refine ⟨{ mkAuditLog req (resolvedStatus cfg req) with
        id := uuidString u, timestamp := t1, createdAt := t2, updatedAt := t3 }, ?_, rfl⟩
    simp [createAuditLog, h1, h2, h3, he, repoCreate]

/-- C3 witness: the three vocabulary behaviours at concrete inputs — the
default status fills in, the enabled vocabulary rejects "weird", the
disabled vocabulary accepts it. -/
theorem C3_witness :
    samplePostLog.status = sampleCfg.defaultStatus ∧
    (createAuditLog sampleCfg false none true zeroBytes 1 2 3 badStatusReq []).result =
      Except.error (AuditError.invalidStatus "weird" sampleCfg.statusValues) ∧
    (∃ r, (createAuditLog disabledCfg false none true zeroBytes 1 2 3
        badStatusReq []).result = Except.ok r ∧
      r.status = resolvedStatus disabledCfg badStatusReq) := by
  have h := C3_status_vocabulary sampleCfg false none true zeroBytes 1 2 3 badStatusReq []
  have hd := C3_status_vocabulary disabledCfg false none true zeroBytes 1 2 3 badStatusReq []
  refine ⟨(C3_status_vocabulary sampleCfg false none true zeroBytes 1 2 3 samplePostReq
      []).1 samplePostLog rfl (by decide), ?_, hd.2.2 rfl (by decide) rfl⟩
  exact (h.2.1 rfl (by decide) (by decide)).1

/-- C4 (counterexample): the concrete request with ip "not-an-ip" fails,
but with the struct-validation error (the `ip` tag fires during step-1
validation), not with the invalid-input error of the explicit IP re-check;
the store is indeed never invoked. -/
theorem C4_counterexample :
    (createAuditLog sampleCfg false none true zeroBytes 1 2 3 badIPReq []).result =
      Except.error (AuditError.validationFailed ["IP"]) ∧
    (AuditError.validationFailed ["IP"]).isInvalidInput = false ∧
    (createAuditLog sampleCfg false none true zeroBytes 1 2 3 badIPReq []).storeInvoked =
      false := by
  exact ⟨by decide, by decide, by decide⟩

/-- C4 (amended): any request whose ip does not parse fails before any
persistence attempt — the store is never invoked and the table is
unchanged — but the failure is the struct-validation error listing the
violated fields (the explicit IP re-check, which would produce the
invalid-input error, is unreachable because struct validation already
checks the ip format). -/
theorem C4_invalid_ip_fail_fast (cfg : AuditConfig) (hasN : Bool) (nr : Option String)
    (execOk : Bool) (u : Fin 16 → Nat) (t1 t2 t3 : Nat)
    (req : CreateAuditLogRequest) (db : List AuditLog)
    (hip : goParseIP req.ip = false) :
    (createAuditLog cfg hasN nr execOk u t1 t2 t3 req db).result =
      Except.error (AuditError.validationFailed (validateCreateRequest req)) ∧
    (createAuditLog cfg hasN nr execOk u t1 t2 t3 req db).storeInvoked = false ∧
    (createAuditLog cfg hasN nr execOk u t1 t2 t3 req db).db = db := by
  have hfalse : (validateCreateRequest req).isEmpty = false := by
    rw [Bool.eq_false_iff]
    intro h
    have := validate_nil_ip (List.isEmpty_iff.mp h)
    rw [hip] at this
    exact Bool.false_ne_true this
  exact ⟨by simp [createAuditLog, hfalse], by simp [createAuditLog, hfalse],
    by simp [createAuditLog, hfalse]⟩

/-- C4 witness: the amended fail-fast behaviour at the concrete bad ip. -/
theorem C4_fail_fast_witness :
    goParseIP badIPReq.ip = false ∧
    ((createAuditLog sampleCfg false none true zeroBytes 1 2 3 badIPReq []).result =
      Except.error (AuditError.validationFailed (validateCreateRequest badIPReq)) ∧
    (createAuditLog sampleCfg false none true zeroBytes 1 2 3 badIPReq []).storeInvoked =
      false ∧
    (createAuditLog sampleCfg false none true zeroBytes 1 2 3 badIPReq []).db = []) :=
  ⟨by decide, C4_invalid_ip_fail_fast sampleCfg false none true zeroBytes 1 2 3 badIPReq []
    (by decide)⟩

/-- C5 (counterexample): under the monotone clock 1, 2, 3 the creation
succeeds and the returned record has created_at 2 but updated_at 3 — the
two fields come from separate time.Now() calls and are not equal. -/
theorem C5_counterexample :
    ((createAuditLog sampleCfg false none true zeroBytes 1 2 3 samplePostReq []).result.map
      (fun r => (r.createdAt, r.updatedAt, r.createdAt == r.updatedAt))) =
      Except.ok (2, 3, false) := by
  decide

/-- C5 (amended): every successfully created record has a non-empty
36-character server-assigned identifier and carries the three clock
instants (all set, hence non-zero under a positive clock), with updated_at
assigned at or after created_at — but not necessarily equal to it. -/
theorem C5_id_and_timestamps (cfg : AuditConfig) (hasN : Bool) (nr : Option String)
    (execOk : Bool) (u : Fin 16 → Nat) (t1 t2 t3 : Nat)
    (req : CreateAuditLogRequest) (db : List AuditLog) (r : AuditLog)
    (ht1 : 0 < t1) (ht12 : t1 ≤ t2) (ht23 : t2 ≤ t3)
    (h : (createAuditLog cfg hasN nr execOk u t1 t2 t3 req db).result = Except.ok r) :
    r.id ≠ "" ∧ r.id.length = 36 ∧
    r.timestamp = t1 ∧ r.createdAt = t2 ∧ r.updatedAt = t3 ∧
    0 < r.timestamp ∧ 0 < r.createdAt ∧ 0 < r.updatedAt ∧
    r.createdAt ≤ r.updatedAt := by
  obtain ⟨-, -, hr, -⟩ := create_ok_elim h
  subst hr
  exact ⟨uuidString_ne_empty u, uuidString_length u, rfl, rfl, rfl, ht1,
    lt_of_lt_of_le ht1 ht12, lt_of_lt_of_le (lt_of_lt_of_le ht1 ht12) ht23, ht23⟩

/-- C5 witness: the amended identifier/timestamp guarantees at the concrete
creation under clock 1, 2, 3. -/
theorem C5_witness :
    samplePostLog.id ≠ "" ∧ samplePostLog.id.length = 36 ∧
    samplePostLog.timestamp = 1 ∧ samplePostLog.createdAt = 2 ∧
    samplePostLog.updatedAt = 3 ∧
    0 < samplePostLog.timestamp ∧ 0 < samplePostLog.createdAt ∧
    0 < samplePostLog.updatedAt ∧
    samplePostLog.createdAt ≤ samplePostLog.updatedAt :=
  C5_id_and_timestamps sampleCfg false none true zeroBytes 1 2 3 samplePostReq []
    samplePostLog (by decide) (by decide) (by decide) (by decide)

/-- Success elimination for the status update: an ok result is exactly the
table with the UPDATE row mutation applied to the matching rows. -/
theorem updateStatus_ok_elim {cfg : AuditConfig} {now : Nat} {db : List AuditLog}
    {id : String} {req : UpdateStatusRequest} {db2 : List AuditLog}
    (h : updateAuditLogStatus cfg now db id req = Except.ok db2) :
    db2 = db.map (fun r => if r.id == id then applyStatusUpdate now req r else r) := by
  by_cases hid : (id == "") = true
  · simp [updateAuditLogStatus, hid] at h
  · by_cases hst : (req.status == "") = true
    · simp [updateAuditLogStatus, hid, hst] at h
    · by_cases hvoc : (cfg.enabled && !(cfg.isValidStatus req.status)) = true
      · simp [updateAuditLogStatus, hid, hst, hvoc] at h
      · by_cases hany : db.any (fun r => r.id == id) = true
        · simp [updateAuditLogStatus, repoUpdateStatus, hid, hst, hvoc, hany] at h
          simp only [beq_iff_eq]
          exact h.symm
        · simp [updateAuditLogStatus, repoUpdateStatus, hid, hst, hvoc, hany] at h

/-- C6: a status-only update rewrites matching rows changing only status
and updated_at; an update with data but no meta additionally changes only
data; every successful update stamps updated_at with the update instant on
the matched rows; and an update matching zero rows fails with the
not-found error. -/
theorem C6_partial_update (cfg : AuditConfig) (now : Nat) (db : List AuditLog)
    (id : String) (req : UpdateStatusRequest) :
    (req.data = none → req.meta = none → ∀ db2,
      updateAuditLogStatus cfg now db id req = Except.ok db2 →
      db2 = db.map (fun r => if r.id == id then
        { r with status := req.status, updatedAt := now } else r)) ∧
    (∀ d, req.data = some d → req.meta = none → ∀ db2,
      updateAuditLogStatus cfg now db id req = Except.ok db2 →
      db2 = db.map (fun r => if r.id == id then
        { r with status := req.status, updatedAt := now, data := some d } else r)) ∧
    (∀ db2, updateAuditLogStatus cfg now db id req = Except.ok db2 →
      ∀ r ∈ db2, r.id = id → r.updatedAt = now) ∧
    (¬ id = "" → ¬ req.status = "" →
      (cfg.enabled && !(cfg.isValidStatus req.status)) = false →
      db.any (fun r => r.id == id) = false →
      updateAuditLogStatus cfg now db id req = Except.error AuditError.notFound) := by
  refine ⟨?_, ?_, ?_, ?_⟩
  · intro hd hm db2 h
    rw [updateStatus_ok_elim h]
    apply List.map_congr_left
    intro r _
    by_cases hr : (r.id == id) = true <;>
      simp [hr, applyStatusUpdate, hd, hm]
  · intro d hd hm db2 h
    rw [updateStatus_ok_elim h]
    apply List.map_congr_left
    intro r _
    by_cases hr : (r.id == id) = true <;>
      simp [hr, applyStatusUpdate, hd, hm]
  · intro db2 h r hmem hrid
    rw [updateStatus_ok_elim h] at hmem
    obtain ⟨x, -, hfx⟩ := List.mem_map.mp hmem
    by_cases hxi : (x.id == id) = true
    · rw [if_pos hxi] at hfx
      rw [← hfx]
      rfl
    · rw [if_neg hxi] at hfx
      rw [← hfx] at hrid
      exact absurd (beq_iff_eq.mpr hrid) hxi
  · intro hid hst hvoc hany
    have hid2 : (id == "") = false := beq_eq_false_iff_ne.mpr hid
    have hst2 : (req.status == "") = false := beq_eq_false_iff_ne.mpr hst
    simp [updateAuditLogStatus, repoUpdateStatus, hid2, hst2, hvoc, hany]

/-- C6 witness: the three update behaviours at a concrete one-row table. -/
theorem C6_witness :
    [{ storedLog with status := "completed", updatedAt := 20 }] =
      [storedLog].map (fun r => if r.id == "id-1" then
        { r with status := updOnlyStatus.status, updatedAt := 20 } else r) ∧
    [{ storedLog with status := "completed", updatedAt := 20, data := some "newdata" }] =
      [storedLog].map (fun r => if r.id == "id-1" then
        { r with status := updWithData.status, updatedAt := 20, data := some "newdata" } else r) ∧
    updateAuditLogStatus sampleCfg 20 [storedLog] "missing" updOnlyStatus =
      Except.error AuditError.notFound := by
  refine ⟨(C6_partial_update sampleCfg 20 [storedLog] "id-1" updOnlyStatus).1 rfl rfl _
      (by decide),
    (C6_partial_update sampleCfg 20 [storedLog] "id-1" updWithData).2.1 "newdata" rfl rfl _
      (by decide),
    (C6_partial_update sampleCfg 20 [storedLog] "missing" updOnlyStatus).2.2.2
      (by decide) (by decide) (by decide) (by decide)⟩

/-- A multi-target send loop with no failures attempts every target. -/
theorem sendSeq_all_ok (fail : String → Option String) :
    ∀ l, (∀ x ∈ l, fail x = none) → sendSeq fail l = (none, l) := by
  intro l
  induction l with
  | nil => intro _; rfl
  | cons a as ih =>
    intro h
    have ha := h a (List.mem_cons_self a as)
    simp [sendSeq, ha, ih (fun x hx => h x (List.mem_cons_of_mem a hx))]

/-- A multi-target send loop stops at the first failing target: targets
before it are attempted, the failing target is attempted and reported, and
targets after it are never attempted. -/
theorem sendSeq_first_fail (fail : String → Option String) :
    ∀ pre t post e, (∀ x ∈ pre, fail x = none) → fail t = some e →
      sendSeq fail (pre ++ t :: post) = (some (t, e), pre ++ [t]) := by
  intro pre
  induction pre with
  | nil => intro t post e _ ht; simp [sendSeq, ht]
  | cons a as ih =>
    intro t post e h ht
    have ha := h a (List.mem_cons_self a as)
    simp [sendSeq, ha, ih t post e (fun x hx => h x (List.mem_cons_of_mem a hx)) ht]

/-- C7 (counterexample): with two configured recipients and delivery
failing for the first, the email channel reports one aggregated channel
error naming only the first recipient and never attempts the second —
per-recipient failures are not independent. -/
theorem C7_counterexample :
    sendEmailNotification envFailFirst notifCfgAll =
      (some "failed to send email to a@x: boom", ["a@x"]) ∧
    "b@y" ∈ notifCfgAll.email.toRecipients ∧
    "b@y" ∉ (sendEmailNotification envFailFirst notifCfgAll).2 := by
  exact ⟨by decide, by decide, by decide⟩

/-- C7 (amended): within the email and webhook channels targets are
attempted sequentially and the first per-target failure aborts the
channel: that recipient or URL is reported in a single channel error and
the remaining targets are not attempted; with no failures every target is
attempted. -/
theorem C7_first_failure_aborts (env : SendEnv) (cfg : NotificationConfig) :
    (∀ l, (∀ x ∈ l, env.emailFail x = none) → sendSeq env.emailFail l = (none, l)) ∧
    (∀ pre t post e, env.hasEmailSender = true →
      cfg.email.toRecipients = pre ++ t :: post →
      (∀ x ∈ pre, env.emailFail x = none) → env.emailFail t = some e →
      sendEmailNotification env cfg =
        (some ("failed to send email to " ++ t ++ ": " ++ e), pre ++ [t])) ∧
    (∀ pre t post e, env.hasWebhookSender = true →
      cfg.webhook.urls = pre ++ t :: post →
      (∀ x ∈ pre, env.webhookFail x = none) → env.webhookFail t = some e →
      sendWebhookNotification env cfg =
        (some ("failed to send webhook to " ++ t ++ ": " ++ e), pre ++ [t])) := by
  refine ⟨sendSeq_all_ok env.emailFail, ?_, ?_⟩
  · intro pre t post e hs hrec hpre ht
    have hseq := sendSeq_first_fail env.emailFail pre t post e hpre ht
    simp [sendEmailNotification, hs, hrec, hseq]
  · intro pre t post e hs hurls hpre ht
    have hseq := sendSeq_first_fail env.webhookFail pre t post e hpre ht
    simp [sendWebhookNotification, hs, hurls, hseq]

/-- C7 witness: the abort-on-first-failure behaviour at the concrete
two-recipient configuration, and the all-attempted behaviour when nothing
fails. -/
theorem C7_witness :
    sendSeq envAllOk.emailFail ["a@x", "b@y"] = (none, ["a@x", "b@y"]) ∧
    sendEmailNotification envFailFirst notifCfgAll =
      (some ("failed to send email to " ++ "a@x" ++ ": " ++ "boom"), [] ++ ["a@x"]) :=
  ⟨(C7_first_failure_aborts envAllOk notifCfgAll).1 ["a@x", "b@y"] (by decide),
    (C7_first_failure_aborts envFailFirst notifCfgAll).2.1 [] "a@x" ["b@y"] "boom"
      (by decide) (by decide) (by decide) (by decide)⟩

/-- The channels dispatched by a fan-out call are exactly the enabled
channels whose predicates hold, in email/slack/webhook order. -/
theorem sendNotification_dispatched (env : SendEnv) (cfg : NotificationConfig)
    (log : AuditLog) :
    (sendNotification env cfg log).dispatched =
      (if cfg.email.enabled && shouldNotifyByEmail log then [Channel.email] else []) ++
      (if cfg.slack.enabled && shouldNotifyBySlack log then [Channel.slack] else []) ++
      (if cfg.webhook.enabled && shouldNotifyByWebhook log then [Channel.webhook] else []) := by
  rcases he : sendEmailNotification env cfg with ⟨eerr, eatt⟩
  rcases hsl : sendSlackNotification env cfg with _ | ss <;>
  rcases hw : sendWebhookNotification env cfg with ⟨werr, watt⟩ <;>
  cases eerr <;> cases werr <;>
  by_cases c1 : (cfg.email.enabled && shouldNotifyByEmail log) = true <;>
  by_cases c2 : (cfg.slack.enabled && shouldNotifyBySlack log) = true <;>
  by_cases c3 : (cfg.webhook.enabled && shouldNotifyByWebhook log) = true <;>
  · have hss : shouldSendNotification cfg log =
        ((cfg.email.enabled && shouldNotifyByEmail log) ||
         (cfg.slack.enabled && shouldNotifyBySlack log) ||
         (cfg.webhook.enabled && shouldNotifyByWebhook log)) := rfl
    simp only [Bool.not_eq_true] at c1 c2 c3
    simp [sendNotification, hss, c1, c2, c3, he, hsl, hw]

/-- C8: fan-out dispatches exactly the qualifying channels — email iff
enabled and the event name contains a critical marker (case-insensitively),
slack iff enabled and the environment is production, webhook iff enabled —
and performs no work at all when no channel qualifies. -/
theorem C8_dispatch_predicates (env : SendEnv) (cfg : NotificationConfig)
    (log : AuditLog) :
    ((Channel.email ∈ (sendNotification env cfg log).dispatched) ↔
      (cfg.email.enabled = true ∧ shouldNotifyByEmail log = true)) ∧
    ((Channel.slack ∈ (sendNotification env cfg log).dispatched) ↔
      (cfg.slack.enabled = true ∧ log.environment = "production")) ∧
    ((Channel.webhook ∈ (sendNotification env cfg log).dispatched) ↔
      cfg.webhook.enabled = true) ∧
    (shouldNotifyByEmail log =
      (goContains (goToUpper log.event) "DELETE" ||
       goContains (goToUpper log.event) "UNAUTHORIZED_ACCESS" ||
       goContains (goToUpper log.event) "SECURITY_BREACH")) ∧
    (shouldSendNotification cfg log = false →
      sendNotification env cfg log = ⟨[], [], false, [], [], none⟩) := by
  refine ⟨?_, ?_, ?_, ?_, ?_⟩
  · rw [sendNotification_dispatched]
    by_cases c1 : (cfg.email.enabled && shouldNotifyByEmail log) = true <;>
    by_cases c2 : (cfg.slack.enabled && shouldNotifyBySlack log) = true <;>
    by_cases c3 : (cfg.webhook.enabled && shouldNotifyByWebhook log) = true <;>
      simp_all [Bool.and_eq_true]
  · rw [sendNotification_dispatched]
    by_cases c1 : (cfg.email.enabled && shouldNotifyByEmail log) = true <;>
    by_cases c2 : (cfg.slack.enabled && shouldNotifyBySlack log) = true <;>
    by_cases c3 : (cfg.webhook.enabled && shouldNotifyByWebhook log) = true <;>
      simp_all [Bool.and_eq_true, shouldNotifyBySlack]
  · rw [sendNotification_dispatched]
    by_cases c1 : (cfg.email.enabled && shouldNotifyByEmail log) = true <;>
    by_cases c2 : (cfg.slack.enabled && shouldNotifyBySlack log) = true <;>
    by_cases c3 : (cfg.webhook.enabled && shouldNotifyByWebhook log) = true <;>
      simp_all [Bool.and_eq_true, shouldNotifyByWebhook]
  · simp [shouldNotifyByEmail, criticalEvents, Bool.or_assoc]
  · intro h
    simp [sendNotification, h]

/-- C8 witness: the spec's concrete scenarios — a production USER_DELETED
event dispatches both email and slack, a development USER_VIEWED event
dispatches only the webhook, and with every channel disabled the fan-out
returns immediately with nothing dispatched. -/
theorem C8_witness :
    Channel.email ∈ (sendNotification envAllOk notifCfgAll deleteLog).dispatched ∧
    Channel.slack ∈ (sendNotification envAllOk notifCfgAll deleteLog).dispatched ∧
    ¬ Channel.email ∈ (sendNotification envAllOk notifCfgAll viewLog).dispatched ∧
    ¬ Channel.slack ∈ (sendNotification envAllOk notifCfgAll viewLog).dispatched ∧
    Channel.webhook ∈ (sendNotification envAllOk notifCfgAll viewLog).dispatched ∧
    sendNotification envAllOk disabledNotifCfg viewLog = ⟨[], [], false, [], [], none⟩ := by
  have hd := C8_dispatch_predicates envAllOk notifCfgAll deleteLog
  have hv := C8_dispatch_predicates envAllOk notifCfgAll viewLog
  have hn := C8_dispatch_predicates envAllOk disabledNotifCfg viewLog
  refine ⟨hd.1.mpr ⟨rfl, by decide⟩, hd.2.1.mpr ⟨rfl, rfl⟩, ?_, ?_,
    hv.2.2.1.mpr rfl, hn.2.2.2.2 (by decide)⟩
  · intro hm
    exact absurd (hv.1.mp hm).2 (by decide)
  · intro hm
    exact absurd (hv.2.1.mp hm).2 (by decide)

/-- The sequential filter clamps amount to the effective limit and offset. -/
theorem clampFilter_eq (f : AuditLogFilter) :
    clampFilter f = { f with limit := effLimit f.limit, offset := effOffset f.offset } := by
  by_cases hl : f.limit ≤ 0
  · by_cases ho : f.offset < 0 <;>
      simp [clampFilter, effLimit, effOffset, hl, ho]
  · by_cases hg : f.limit > 1000 <;> by_cases ho : f.offset < 0 <;>
      simp [clampFilter, effLimit, effOffset, hl, hg, ho]

/-- C9: pagination parameters are clamped before querying — a limit ≤ 0
becomes 50, a limit > 1000 becomes 1000, an offset < 0 becomes 0 — and a
successful list call both queries with and echoes the clamped values. -/
theorem C9_pagination_clamps (db : List AuditLog) (f : AuditLogFilter) :
    (f.limit ≤ 0 → effLimit f.limit = 50) ∧
    (f.limit > 1000 → effLimit f.limit = 1000) ∧
    (f.offset < 0 → effOffset f.offset = 0) ∧
    (∀ resp, listAuditLogs db f = Except.ok resp →
      resp = repoList db { f with limit := effLimit f.limit, offset := effOffset f.offset } ∧
      resp.limit = effLimit f.limit ∧ resp.offset = effOffset f.offset) := by
  refine ⟨?_, ?_, ?_, ?_⟩
  · intro h; simp [effLimit, h]
  · intro h
    have h0 : ¬ f.limit ≤ 0 := by omega
    simp [effLimit, h0, h]
  · intro h; simp [effOffset, h]
  · intro resp h
    simp only [listAuditLogs] at h
    split at h
    · exact absurd h (by simp)
    · have hr := (Except.ok.injEq _ _).mp h
      rw [clampFilter_eq] at hr
      subst hr
      exact ⟨rfl, rfl, rfl⟩

/-- C9 witness: the out-of-range filter (limit -5, offset -3) is clamped
to 50/0, queried and echoed as such on a one-row table. -/
theorem C9_witness :
    effLimit badPageFilter.limit = 50 ∧
    effOffset badPageFilter.offset = 0 ∧
    ({ data := [storedLog], total := 1, limit := 50, offset := 0, hasMore := false } :
        PaginatedResponse) =
      repoList [storedLog] { badPageFilter with
        limit := effLimit badPageFilter.limit, offset := effOffset badPageFilter.offset } ∧
    (50 : Int) = effLimit badPageFilter.limit := by
  have h := C9_pagination_clamps [storedLog] badPageFilter
  obtain ⟨hr, hl, -⟩ := h.2.2.2
    { data := [storedLog], total := 1, limit := 50, offset := 0, hasMore := false }
    (by decide)
  exact ⟨h.1 (by decide), h.2.2.1 (by decide), hr, hl.symm⟩

/-- C10: with an empty configured error status, the error-count query
carries no status predicate and coincides with the total query, so the
statistics report error_count equal to total_logs for every tenant, date
range and table. -/
theorem C10_empty_error_status (cfg : AuditConfig) (db : List AuditLog)
    (tenantID : String) (startDate endDate : Nat)
    (h : cfg.errorStatus = "") :
    (getAuditLogStats cfg db tenantID startDate endDate).errorCount =
      (getAuditLogStats cfg db tenantID startDate endDate).totalLogs := by
  simp [getAuditLogStats, h]

/-- C10 witness: the degenerate statistics at a concrete configuration with
an empty error status and a one-row table. -/
theorem C10_witness :
    (getAuditLogStats emptyErrorCfg [storedLog] "t1" 0 0).errorCount =
      (getAuditLogStats emptyErrorCfg [storedLog] "t1" 0 0).totalLogs :=
  C10_empty_error_status emptyErrorCfg [storedLog] "t1" 0 0 (by decide)
